import Mathlib

/-!
# Verification of the Canvas LMS API wrapper (canvas_api.py / server.py)

A shallow embedding of the two source files of the repository:

* `canvas_api.py` — the `CanvasAPI` client: the `_make_request` primitive and the
  domain operations (`get_course`, `get_upcoming_assignments`, `get_course_files`,
  `get_all_assignment_grades`, `get_all_calendar_events`, `get_announcements`).
* `server.py` — the tool façade: one handler per client operation, each wrapping
  the client call in `try/except CanvasAPIError`.

Modelling conventions:

* JSON payload values the code merely passes through are modelled by the `Json`
  type; Python `None` is `Json.null`.
* A Python string is modelled by Lean `String`; every string operation the code
  uses (`replace`, `lower`, `in`, `split('_')[-1]`, `int(...)`, slicing, `sort`)
  is implemented below by structural recursion over the character list, following
  Python's semantics (code-point comparisons, stable sort).
* An HTTP exchange is modelled by its observable outcome (`HttpOutcome`); a call
  that may raise `CanvasAPIError` is a `Except String` value whose `error`
  component is the exception message.
* `datetime` values are abstracted by a linearly ordered type together with a
  partial parsing function `parse : String → Option τ`, standing for
  `datetime.fromisoformat`; `now` is a parameter.
-/

/-- JSON values, as parsed from upstream response bodies. -/
inductive Json where
  | null
  | bool (b : Bool)
  | num (n : Int)
  | str (s : String)
  | arr (elts : List Json)
  | obj (fields : List (String × Json))

/-- Python truthiness (`if x:`) of a JSON value. -/
def pyTruthy : Json → Bool
  | .null => false
  | .bool b => b
  | .num n => decide (n ≠ 0)
  | .str s => decide (s ≠ "")
  | .arr l => !l.isEmpty
  | .obj l => !l.isEmpty

/-- Python truthiness of an optional integer (`if course_id:`). -/
def pyTruthyIntOpt : Option Int → Bool
  | none => false
  | some i => decide (i ≠ 0)

/-- Python's `str.replace(pat, rep)` for a single-character pattern (the source only uses
`due_at.replace('Z', '+00:00')`): every occurrence is replaced. -/
def replaceCharL (pat : Char) (rep : List Char) : List Char → List Char
  | [] => []
  | c :: cs => if c = pat then rep ++ replaceCharL pat rep cs else c :: replaceCharL pat rep cs

/-- Python's `s.replace(pat, rep)` on strings, single-character pattern. -/
def pyReplaceChar (s : String) (pat : Char) (rep : String) : String :=
  ⟨replaceCharL pat rep.data s.data⟩

/-- Whether `pat` is a prefix of the character list. -/
def prefixAt : List Char → List Char → Bool
  | [], _ => true
  | _ :: _, [] => false
  | p :: ps, c :: cs => p = c && prefixAt ps cs

/-- Whether `pat` occurs as a contiguous substring. -/
def containsL (pat : List Char) : List Char → Bool
  | [] => prefixAt pat []
  | c :: cs => prefixAt pat (c :: cs) || containsL pat cs

/-- Python's `pat in s` substring test. -/
def strContains (s pat : String) : Bool := containsL pat.data s.data

/-- Python's `str.lower()` (the error messages are ASCII). -/
def pyLower (s : String) : String := ⟨s.data.map Char.toLower⟩

/-- Python's `s[:n]` string slice. -/
def pyTake (n : Nat) (s : String) : String := ⟨s.data.take n⟩

/-- Python's `s.split(sep)[-1]`: the component after the last separator (the whole string
when the separator does not occur; `""` for the empty string). -/
def lastComponentAux (sep : Char) (cur : List Char) : List Char → List Char
  | [] => cur
  | c :: cs => if c = sep then lastComponentAux sep [] cs else lastComponentAux sep (cur ++ [c]) cs

/-- Python's `s.split(sep)[-1]` on strings. -/
def lastComponent (sep : Char) (s : String) : String := ⟨lastComponentAux sep [] s.data⟩

/-- Value of a non-empty all-digit character list, accumulator form. -/
def digitsValAux (acc : Nat) : List Char → Option Nat
  | [] => some acc
  | c :: cs => if c.isDigit then digitsValAux (acc * 10 + (c.toNat - 48)) cs else none

/-- Value of a character list that is non-empty and all decimal digits; `none`
otherwise. -/
def digitsVal : List Char → Option Nat
  | [] => none
  | c :: cs => if c.isDigit then digitsValAux (c.toNat - 48) cs else none

/-- Whitespace stripped by Python's `int(str)` conversion (ASCII cases). -/
def isPySpace (c : Char) : Bool :=
  c = ' ' || c = '\t' || c = '\n' || c = '\r' || c = '\x0b' || c = '\x0c'

/-- Python `str.strip()` of whitespace, on character lists. -/
def trimL (cs : List Char) : List Char :=
  ((cs.dropWhile isPySpace).reverse.dropWhile isPySpace).reverse

/-- Python's `int(s)`: optional surrounding whitespace, an optional sign, then a
non-empty run of decimal digits; `none` models `ValueError`. -/
def pyIntParse (s : String) : Option Int :=
  match trimL s.data with
  | '-' :: ds => (digitsVal ds).map (fun n => -(n : Int))
  | '+' :: ds => (digitsVal ds).map (fun n => (n : Int))
  | ds => (digitsVal ds).map (fun n => (n : Int))

/-- Lexicographic (code-point) `≤` on character lists: Python's string order. -/
def lexLe : List Char → List Char → Bool
  | [], _ => true
  | _ :: _, [] => false
  | a :: as, b :: bs => if a.toNat = b.toNat then lexLe as bs else decide (a.toNat < b.toNat)

/-- Python's string `≤` (lexicographic by code point). -/
def strLe (s t : String) : Bool := lexLe s.data t.data

theorem lexLe_total : ∀ (as bs : List Char), (lexLe as bs || lexLe bs as) = true := by
  intro as
  induction as with
  | nil => intro bs; simp [lexLe]
  | cons a as ih =>
    intro bs
    cases bs with
    | nil => simp [lexLe]
    | cons b bs =>
      simp only [lexLe]
      by_cases h : a.toNat = b.toNat
      · rw [if_pos h, if_pos h.symm]
        exact ih bs
      · have h' : ¬ b.toNat = a.toNat := fun hh => h hh.symm
        rw [if_neg h, if_neg h']
        simp only [Bool.or_eq_true, decide_eq_true_eq]
        omega

theorem lexLe_trans : ∀ (as bs cs : List Char),
    lexLe as bs = true → lexLe bs cs = true → lexLe as cs = true := by
  intro as
  induction as with
  | nil => intro bs cs _ _; simp [lexLe]
  | cons a as ih =>
    intro bs cs h1 h2
    cases bs with
    | nil => simp [lexLe] at h1
    | cons b bs =>
      cases cs with
      | nil => simp [lexLe] at h2
      | cons c cs =>
        simp only [lexLe] at h1 h2 ⊢
        by_cases hab : a.toNat = b.toNat
        · by_cases hbc : b.toNat = c.toNat
          · rw [if_pos hab] at h1
            rw [if_pos hbc] at h2
            rw [if_pos (hab.trans hbc)]
            exact ih bs cs h1 h2
          · rw [if_neg hbc] at h2
            have hlt : b.toNat < c.toNat := by simpa using h2
            have hac : ¬ a.toNat = c.toNat := by omega
            rw [if_neg hac]
            simp only [decide_eq_true_eq]
            omega
        · rw [if_neg hab] at h1
          have hlt : a.toNat < b.toNat := by simpa using h1
          by_cases hbc : b.toNat = c.toNat
          · have hac : ¬ a.toNat = c.toNat := by omega
            rw [if_neg hac]
            simp only [decide_eq_true_eq]
            omega
          · rw [if_neg hbc] at h2
            have hlt2 : b.toNat < c.toNat := by simpa using h2
            have hac : ¬ a.toNat = c.toNat := by omega
            rw [if_neg hac]
            simp only [decide_eq_true_eq]
            omega

theorem strLe_total (s t : String) : (strLe s t || strLe t s) = true :=
  lexLe_total s.data t.data

theorem strLe_trans {s t u : String} :
    strLe s t = true → strLe t u = true → strLe s u = true :=
  lexLe_trans s.data t.data u.data

/-- One step of stable insertion: the new element goes in front of the first
element it compares `≤` to, hence in front of later-arriving equal keys. -/
def insertSorted (le : α → α → Bool) (a : α) : List α → List α
  | [] => [a]
  | b :: l => if le a b then a :: b :: l else b :: insertSorted le a l

/-- Stable sort by a boolean comparison: the model of Python's `list.sort(key=...)`
(Timsort is a stable sort, and any two stable sorts for the same total preorder
agree). -/
def pySortBy (le : α → α → Bool) : List α → List α
  | [] => []
  | a :: l => insertSorted le a (pySortBy le l)

theorem insertSorted_perm (le : α → α → Bool) (a : α) :
    ∀ l : List α, (insertSorted le a l).Perm (a :: l)
  | [] => .refl _
  | b :: l => by
    simp only [insertSorted]
    split
    · exact .refl _
    · exact ((insertSorted_perm le a l).cons b).trans (List.Perm.swap a b l)

theorem pySortBy_perm (le : α → α → Bool) : ∀ l : List α, (pySortBy le l).Perm l
  | [] => .refl _
  | a :: l => (insertSorted_perm le a (pySortBy le l)).trans ((pySortBy_perm le l).cons a)

theorem mem_pySortBy {le : α → α → Bool} {l : List α} {x : α} :
    x ∈ pySortBy le l ↔ x ∈ l :=
  (pySortBy_perm le l).mem_iff

theorem pairwise_insertSorted {le : α → α → Bool}
    (total : ∀ a b, (le a b || le b a) = true)
    (trans : ∀ a b c, le a b = true → le b c = true → le a c = true)
    (a : α) : ∀ l : List α, l.Pairwise (fun x y => le x y = true) →
      (insertSorted le a l).Pairwise (fun x y => le x y = true)
  | [], _ => by simp [insertSorted]
  | b :: l, h => by
    rw [List.pairwise_cons] at h
    obtain ⟨hb, hl⟩ := h
    simp only [insertSorted]
    split
    · rename_i hab
      rw [List.pairwise_cons]
      refine ⟨?_, List.pairwise_cons.mpr ⟨hb, hl⟩⟩
      intro y hy
      rcases List.mem_cons.mp hy with rfl | hy
      · exact hab
      · exact trans a b y hab (hb y hy)
    · rename_i hab
      have hba : le b a = true := by
        have htot := total a b
        simp only [Bool.or_eq_true] at htot
        rcases htot with h' | h'
        · exact absurd h' hab
        · exact h'
      rw [List.pairwise_cons]
      constructor
      · intro y hy
        rcases List.mem_cons.mp ((insertSorted_perm le a l).mem_iff.mp hy) with rfl | hy'
        · exact hba
        · exact hb y hy'
      · exact pairwise_insertSorted total trans a l hl

theorem pairwise_pySortBy {le : α → α → Bool}
    (total : ∀ a b, (le a b || le b a) = true)
    (trans : ∀ a b c, le a b = true → le b c = true → le a c = true) :
    ∀ l : List α, (pySortBy le l).Pairwise (fun x y => le x y = true)
  | [] => .nil
  | a :: l => pairwise_insertSorted total trans a _ (pairwise_pySortBy total trans l)

/-! ## The request primitive (`CanvasAPI._make_request`) -/

/-- Observable outcome of the underlying `requests.get` call. -/
inductive HttpOutcome where
  | response (status : Nat) (body : String) (payload : Json)
  | timeout
  | connectionError
  | requestException (msg : String)

def authFailedMsg : String := "Authentication failed. Please check your CANVAS_TOKEN."

def forbiddenMsg : String := "Access forbidden. You may not have permission to access this resource."

def notFoundMsg : String := "Resource not found. Please check the course ID or endpoint."

def rateLimitMsg : String := "Rate limit exceeded. Please wait a moment and try again."

/-- Message of the generic non-200 failure: status code plus body truncated to
200 characters (`response.text[:200]`). -/
def genericFailMsg (status : Nat) (body : String) : String :=
  "API request failed with status " ++ Nat.repr status ++ ": " ++ pyTake 200 body

def timeoutMsg : String := "Request timed out. Please check your network connection."

def connErrMsg : String := "Connection error. Please check your network connection."

def requestFailMsg (msg : String) : String := "Request failed: " ++ msg

/-- Model of `CanvasAPI._make_request`: HTTP 200 returns the parsed JSON body; the four
recognised statuses raise fixed messages; any other status raises the generic
message; transport failures raise their own messages.  A raised
`CanvasAPIError` is the `.error` case, carrying the exception's message. -/
def make_request : HttpOutcome → Except String Json
  | .response status body payload =>
    if status = 200 then .ok payload
    else if status = 401 then .error authFailedMsg
    else if status = 403 then .error forbiddenMsg
    else if status = 404 then .error notFoundMsg
    else if status = 429 then .error rateLimitMsg
    else .error (genericFailMsg status body)
  | .timeout => .error timeoutMsg
  | .connectionError => .error connErrMsg
  | .requestException msg => .error (requestFailMsg msg)

/-- The test `'forbidden' in str(e).lower() or '403' in str(e)` — the error classification
used by the domain operations. -/
def isForbiddenErr (e : String) : Bool :=
  strContains (pyLower e) "forbidden" || strContains e "403"

/-- The test `'not found' in str(e).lower() or '404' in str(e)`. -/
def isNotFoundErr (e : String) : Bool :=
  strContains (pyLower e) "not found" || strContains e "404"

/-! ## Courses and assignments -/

/-- A course record as formatted by `CanvasAPI.get_courses` (the fields the
aggregating operations read; `id`, `name` and `course_code` are read with
mandatory indexing downstream, so they are typed concretely). -/
structure Course where
  id : Int
  name : String
  course_code : String
  enrollment_term : Json
  total_students : Json
  workflow_state : Json
  default_view : Option String

/-- An assignment record as formatted by `CanvasAPI.get_assignments`. -/
structure Assignment where
  id : Int
  name : String
  description : Json
  due_at : Option String
  points_possible : Json
  submission_types : Json
  has_submitted_submissions : Json
  workflow_state : Json
  html_url : Json

/-- One record of `get_upcoming_assignments`' output. -/
structure UpcomingRec where
  course_id : Int
  course_name : String
  course_code : String
  assignment_id : Int
  assignment_name : String
  due_at : String
  points_possible : Json
  html_url : Json

/-- The per-assignment body of `get_upcoming_assignments`' loop: keep the
assignment when `due_at` is truthy, parses after replacing `'Z'` with
`'+00:00'` (a `ValueError`/`AttributeError` drops it), and is strictly later
than `now`. -/
def keepUpcoming {τ : Type} [LinearOrder τ] (parse : String → Option τ) (now : τ)
    (course : Course) (a : Assignment) : Option UpcomingRec :=
  match a.due_at with
  | none => none
  | some s =>
    if s = "" then none
    else
      match parse (pyReplaceChar s 'Z' "+00:00") with
      | none => none
      | some d =>
        if now < d then
          some { course_id := course.id, course_name := course.name,
                 course_code := course.course_code,
                 assignment_id := a.id, assignment_name := a.name,
                 due_at := s, points_possible := a.points_possible,
                 html_url := a.html_url }
        else none

/-- Model of `CanvasAPI.get_upcoming_assignments`: fan out over the courses, skipping any
course whose assignment fetch raises; collect the upcoming records; sort
ascending by the raw `due_at` string.  `parse` abstracts
`datetime.fromisoformat`, `now` abstracts `datetime.now(timezone.utc)`. -/
def get_upcoming_assignments {τ : Type} [LinearOrder τ] (parse : String → Option τ) (now : τ)
    (coursesResp : Except String (List Course))
    (fetchAssignments : Int → Except String (List Assignment)) :
    Except String (List UpcomingRec) :=
  match coursesResp with
  | .error e => .error e
  | .ok courses =>
    .ok (pySortBy (fun x y => strLe x.due_at y.due_at)
      (courses.flatMap (fun course =>
        match fetchAssignments course.id with
        | .error _ => []
        | .ok assignments => assignments.filterMap (keepUpcoming parse now course))))

/-! ## `CanvasAPI.get_course` -/

/-- Raw `/courses/{id}` payload fields read by `get_course`.  A `default_view`
that is absent (or `null`) is `none`; the source then substitutes `'unknown'`
before the hint lookup, and both fall through to the generic hint. -/
structure CourseDetail where
  id : Json
  name : Json
  course_code : Json
  enrollment_term_name : Json
  start_at : Json
  end_at : Json
  total_students : Json
  workflow_state : Json
  default_view : Option String
  public_syllabus : Json
  syllabus_body : Json
  teachers : List (Json × Json)

/-- One tab of the `/courses/{id}/tabs` payload: `label`, and `hidden` with the
`t.get('hidden', False)` default when the key is absent. -/
structure Tab where
  label : Json
  hidden : Option Json

/-- The course object returned by `get_course`. -/
structure CourseOut where
  id : Json
  name : Json
  course_code : Json
  enrollment_term : Json
  start_at : Json
  end_at : Json
  total_students : Json
  workflow_state : Json
  default_view : String
  enabled_tabs : List Json
  navigation_hint : String
  public_syllabus : Json
  syllabus_body : Json
  teachers : List (Json × Json)

def modulesHint : String :=
  "This course uses Modules — use get_course_modules to browse weekly content."

def wikiHint : String :=
  "This course uses a home page — use get_course_home_page for main content."

def syllabusFocusHint : String :=
  "This course is syllabus-focused — use get_course_syllabus and get_assignments."

def assignmentsHint : String :=
  "This course is assignment-centric — use get_assignments."

def feedHint : String :=
  "This course uses an activity feed — check get_announcements for updates."

def fallbackHint : String :=
  "Try get_course_modules or get_course_home_page to find content."

/-- The fixed five-entry `view_hints` lookup table of `get_course`. -/
def view_hints : List (String × String) :=
  [("modules", modulesHint), ("wiki", wikiHint), ("syllabus", syllabusFocusHint),
   ("assignments", assignmentsHint), ("feed", feedHint)]

/-- Lookup `view_hints.get(default_view, <generic fallback>)`. -/
def navigation_hint_of (default_view : String) : String :=
  match view_hints.find? (fun p => decide (p.1 = default_view)) with
  | some p => p.2
  | none => fallbackHint

/-- Model of `CanvasAPI.get_course`: the course fetch propagates its error; the tabs
fetch is best-effort (`except CanvasAPIError: pass`, leaving `enabled_tabs`
empty); the navigation hint comes from the lookup table. -/
def get_course (courseResp : Except String CourseDetail)
    (tabsResp : Except String (List Tab)) : Except String CourseOut :=
  match courseResp with
  | .error e => .error e
  | .ok course =>
    let enabled_tabs :=
      match tabsResp with
      | .ok tabs =>
        (tabs.filter (fun t => !pyTruthy (t.hidden.getD (Json.bool false)))).map (·.label)
      | .error _ => []
    let default_view := course.default_view.getD "unknown"
    .ok { id := course.id, name := course.name, course_code := course.course_code,
          enrollment_term := course.enrollment_term_name,
          start_at := course.start_at, end_at := course.end_at,
          total_students := course.total_students,
          workflow_state := course.workflow_state,
          default_view := default_view,
          enabled_tabs := enabled_tabs,
          navigation_hint := navigation_hint_of default_view,
          public_syllabus := course.public_syllabus,
          syllabus_body := course.syllabus_body,
          teachers := course.teachers }

/-! ## `CanvasAPI.get_course_files` -/

/-- Raw fields of one `/courses/{id}/files` entry read by `get_course_files`. -/
structure CanvasFile where
  id : Json
  display_name : Json
  filename : Json
  url : Json
  size : Json
  content_type : Json
  created_at : Json
  updated_at : Json
  folder_id : Json

/-- One formatted file record. -/
structure FileRow where
  id : Json
  display_name : Json
  filename : Json
  url : Json
  size : Json
  content_type : Json
  created_at : Json
  updated_at : Json
  folder_id : Json

def formatFile (f : CanvasFile) : FileRow :=
  { id := f.id, display_name := f.display_name, filename := f.filename,
    url := f.url, size := f.size, content_type := f.content_type,
    created_at := f.created_at, updated_at := f.updated_at, folder_id := f.folder_id }

def noFilesMsg : String :=
  "No files found. This course likely organises content via modules or pages. Try get_course_modules or get_course_home_page."

def filesDisabledMsg : String := "Files tab is disabled or restricted for this course."

def filesMissingMsg : String := "Files section not found for this course."

def filesSuggestions : List String :=
  ["get_course_modules", "get_course_home_page", "get_course_pages"]

def filesSuggestions404 : List String :=
  ["get_course_modules", "get_course_home_page"]

/-- The dictionary returned by `get_course_files`; `none` stands for a key that
is absent from the returned dict. -/
structure FilesResult where
  files : List FileRow
  count : Nat
  message : Option String
  error : Option String
  suggestions : Option (List String)

/-- Model of `CanvasAPI.get_course_files`: empty payload gives the advisory payload with
suggestions; a raised error whose message matches the forbidden test gives the
"files disabled" payload; one matching the not-found test gives the "files
missing" payload; any other error re-raises wholesale. -/
def get_course_files (filesResp : Except String (List CanvasFile)) :
    Except String FilesResult :=
  match filesResp with
  | .ok files =>
    if files.isEmpty then
      .ok { files := [], count := 0, message := some noFilesMsg,
            error := none, suggestions := some filesSuggestions }
    else
      .ok { files := files.map formatFile, count := (files.map formatFile).length,
            message := none, error := none, suggestions := none }
  | .error e =>
    if isForbiddenErr e then
      .ok { files := [], count := 0, message := none,
            error := some filesDisabledMsg, suggestions := some filesSuggestions }
    else if isNotFoundErr e then
      .ok { files := [], count := 0, message := none,
            error := some filesMissingMsg, suggestions := some filesSuggestions404 }
    else .error e

/-! ## `CanvasAPI.get_all_assignment_grades` -/

/-- Fields of the embedded `assignment` object read by
`get_all_assignment_grades`. -/
structure AssignmentMeta where
  name : Option String
  points_possible : Json
  due_at : Option String

/-- Raw fields of one `/courses/{id}/students/submissions` entry that the code
reads.  `late`/`missing` are `none` when the key is absent (the source applies
the `False` default); `assignment` is `none` when absent or `null`
(`sub.get('assignment') or {}`). -/
structure Submission where
  assignment_id : Option Int
  assignment : Option AssignmentMeta
  workflow_state : Option String
  submitted_at : Json
  score : Json
  grade : Json
  late : Option Json
  missing : Option Json
  preview_url : Json

/-- One formatted grade record. -/
structure GradeRow where
  assignment_id : Option Int
  assignment_name : String
  points_possible : Json
  due_at : Option String
  submitted : Bool
  submitted_at : Json
  workflow_state : Option String
  score : Json
  grade : Json
  late : Json
  missing : Json
  html_url : Json

def formatSubmission (sub : Submission) : GradeRow :=
  let assignment := sub.assignment.getD ⟨none, Json.null, none⟩
  { assignment_id := sub.assignment_id
    assignment_name :=
      match assignment.name with
      | some n => n
      | none =>
        "Assignment " ++ (match sub.assignment_id with
          | some i => Int.repr i
          | none => "None")
    points_possible := assignment.points_possible
    due_at := assignment.due_at
    submitted := decide (sub.workflow_state ≠ some "unsubmitted")
    submitted_at := sub.submitted_at
    workflow_state := sub.workflow_state
    score := sub.score
    grade := sub.grade
    late := sub.late.getD (Json.bool false)
    missing := sub.missing.getD (Json.bool false)
    html_url := sub.preview_url }

/-- First component of the sort key: `x.get('workflow_state') != 'graded'`
(`False < True` becomes `0 < 1`). -/
def gradeKey1 (r : GradeRow) : Nat :=
  if r.workflow_state = some "graded" then 0 else 1

/-- Second component of the sort key: `x.get('due_at') or ''`. -/
def dueKey (r : GradeRow) : String := r.due_at.getD ""

/-- The tuple key `(not-graded flag, due-date string)` compared lexicographically. -/
def gradeLe (a b : GradeRow) : Bool :=
  decide (gradeKey1 a < gradeKey1 b) ||
    (decide (gradeKey1 a = gradeKey1 b) && strLe (dueKey a) (dueKey b))

/-- The three output shapes of `get_all_assignment_grades`: the singleton
`{'info': ...}` list, the singleton `{'error': ...}` list, and the list of
grade records. -/
inductive GradesResult where
  | info (msg : String)
  | err (msg : String)
  | rows (rows : List GradeRow)

/-- Model of `CanvasAPI.get_all_assignment_grades`. -/
def get_all_assignment_grades (course_id : Int)
    (submissionsResp : Except String (List Submission)) :
    Except String GradesResult :=
  match submissionsResp with
  | .ok submissions =>
    if submissions.isEmpty then
      .ok (.info "No submissions found for this course.")
    else
      .ok (.rows (pySortBy gradeLe (submissions.map formatSubmission)))
  | .error e =>
    if isForbiddenErr e then
      .ok (.err "Grades are hidden or restricted for this course.")
    else if isNotFoundErr e then
      .ok (.err ("Course " ++ Int.repr course_id ++ " not found."))
    else .error e

/-! ## `CanvasAPI.get_all_calendar_events` -/

/-- Raw fields of one `/calendar_events` entry read by the code.  `etype` models
the `type` key (`event.get('type', 'event')`); `none` means the key is absent. -/
structure CalEvent where
  id : Json
  title : Json
  context_code : Option String
  start_at : Option String
  end_at : Json
  location_name : Json
  description : Json
  html_url : Json
  etype : Option String

/-- One formatted calendar-event record. -/
structure CalRow where
  id : Json
  title : Json
  course_name : String
  course_id : Option Int
  start_at : Option String
  end_at : Json
  location_name : Json
  description : Json
  html_url : Json
  etype : String

/-- The conversion `int(context.split('_')[-1])` with `ValueError`/`IndexError` giving `None`;
the context code defaults to `''` when absent. -/
def parseContextId (context_code : Option String) : Option Int :=
  pyIntParse (lastComponent '_' (context_code.getD ""))

/-- The lookup `{c['id']: c['name'] for c in courses}.get(cid, 'Unknown Course')` (a later
duplicate id overwrites an earlier one, hence the reversed search). -/
def courseMapGet (courses : List Course) : Option Int → String
  | none => "Unknown Course"
  | some i =>
    match courses.reverse.find? (fun c => decide (c.id = i)) with
    | some c => c.name
    | none => "Unknown Course"

/-- The lookup `course_map.get(cid)` without a default. -/
def courseMapGetOpt (courses : List Course) : Option Int → Option String
  | none => none
  | some i => (courses.reverse.find? (fun c => decide (c.id = i))).map (·.name)

def formatCalEvent (courses : List Course) (event : CalEvent) : CalRow :=
  let cid := parseContextId event.context_code
  { id := event.id, title := event.title,
    course_name := courseMapGet courses cid,
    course_id := cid,
    start_at := event.start_at, end_at := event.end_at,
    location_name := event.location_name, description := event.description,
    html_url := event.html_url,
    etype := event.etype.getD "event" }

/-- Ascending sort key `x.get('start_at') or ''`. -/
def calLe (a b : CalRow) : Bool :=
  strLe (a.start_at.getD "") (b.start_at.getD "")

/-- Output shapes of `get_all_calendar_events`: the singleton `{'info': ...}`
list, the singleton `{'error': ...}` list produced by its catch-all handler,
and the list of event records. -/
inductive CalResult where
  | info (msg : String)
  | err (msg : String)
  | rows (rows : List CalRow)

/-- Model of `CanvasAPI.get_all_calendar_events`: a failure of `get_courses` propagates;
no active courses gives the info payload; a failure of the calendar request is
caught by the catch-all `except CanvasAPIError` and returned in-band as the
singleton error list; otherwise the events are formatted and sorted ascending
by start time. -/
def get_all_calendar_events (days_ahead : Int)
    (coursesResp : Except String (List Course))
    (eventsResp : Except String (List CalEvent)) : Except String CalResult :=
  match coursesResp with
  | .error e => .error e
  | .ok courses =>
    if courses.isEmpty then .ok (.info "No active courses found.")
    else
      match eventsResp with
      | .error e => .ok (.err e)
      | .ok events =>
        if events.isEmpty then
          .ok (.info ("No calendar events found in the next " ++ Int.repr days_ahead ++ " days."))
        else
          .ok (.rows (pySortBy calLe (events.map (formatCalEvent courses))))

/-! ## `CanvasAPI.get_announcements` -/

/-- Raw fields of one `/announcements` entry read by the code.
`author_display_name` models `ann.get('author', {}).get('display_name')`. -/
structure Announcement where
  id : Json
  title : Json
  message : Json
  posted_at : Option String
  author_display_name : Json
  context_code : Option String
  html_url : Json
  read_state : Json

/-- One formatted announcement record. -/
structure AnnRow where
  id : Json
  title : Json
  message : Json
  posted_at : Option String
  author : Json
  course_id : Option Int
  course_name : Option String
  html_url : Json
  read_state : Json

def formatAnnouncement (course_map : List Course) (ann : Announcement) : AnnRow :=
  let cid := parseContextId ann.context_code
  { id := ann.id, title := ann.title, message := ann.message,
    posted_at := ann.posted_at,
    author := ann.author_display_name,
    course_id := cid,
    course_name := if pyTruthyIntOpt cid then courseMapGetOpt course_map cid else none,
    html_url := ann.html_url, read_state := ann.read_state }

/-- Descending stable sort on `x.get('posted_at') or ''` (Python's
`sort(..., reverse=True)` is the stable sort under the flipped non-strict
comparison). -/
def annDescLe (a b : AnnRow) : Bool :=
  strLe (b.posted_at.getD "") (a.posted_at.getD "")

/-- Output shapes of `get_announcements`: singleton `{'info': ...}` list,
singleton `{'error': ...}` list, and the list of announcement records. -/
inductive AnnResult where
  | info (msg : String)
  | err (msg : String)
  | rows (rows : List AnnRow)

/-- The scope text `f'course {course_id}' if course_id else 'any active course'`. -/
def scopeText : Option Int → String
  | some i => if i ≠ 0 then "course " ++ Int.repr i else "any active course"
  | none => "any active course"

/-- Body of `get_announcements` from the request on: error classification,
empty advisory, formatting and descending sort. -/
def announcementsCore (course_id : Option Int) (days_back : Int)
    (course_map : List Course)
    (annResp : Except String (List Announcement)) : Except String AnnResult :=
  match annResp with
  | .error e =>
    if isForbiddenErr e then .ok (.err "Announcements are restricted.")
    else .error e
  | .ok anns =>
    if anns.isEmpty then
      .ok (.info ("No announcements in the last " ++ Int.repr days_back ++
        " days for " ++ scopeText course_id ++ "."))
    else
      .ok (.rows (pySortBy annDescLe (anns.map (formatAnnouncement course_map))))

/-- Model of `CanvasAPI.get_announcements`: a truthy `course_id` scopes to one course
with an empty course map; otherwise the active-course list supplies the
context codes and the map (its failure propagating), with the "no active
courses" advisory when it is empty. -/
def get_announcements (course_id : Option Int) (days_back : Int)
    (coursesResp : Except String (List Course))
    (annResp : Except String (List Announcement)) : Except String AnnResult :=
  if pyTruthyIntOpt course_id then
    announcementsCore course_id days_back [] annResp
  else
    match coursesResp with
    | .error e => .error e
    | .ok courses =>
      if courses.isEmpty then .ok (.info "No active courses found.")
      else announcementsCore course_id days_back courses annResp

/-! ## The tool façade (`server.py`) -/

/-- The seventeen operations `server.py` exposes. -/
inductive FacadeOp where
  | list_courses
  | get_course_details
  | get_assignments
  | get_upcoming_deadlines
  | get_course_files
  | get_course_modules
  | get_course_pages
  | get_course_home_page
  | get_course_syllabus
  | get_course_grades
  | get_all_grades
  | get_calendar_events
  | get_all_calendar_events
  | get_announcements
  | get_assignment_submission
  | get_course_discussions
  | get_discussion_entries

/-- Whether the handler's declared return type is `list[dict]` (`true`) or
`dict` (`false`). -/
def returnsList : FacadeOp → Bool
  | .list_courses => true
  | .get_assignments => true
  | .get_upcoming_deadlines => true
  | .get_course_pages => true
  | .get_all_grades => true
  | .get_calendar_events => true
  | .get_all_calendar_events => true
  | .get_announcements => true
  | .get_course_discussions => true
  | .get_discussion_entries => true
  | .get_course_details => false
  | .get_course_files => false
  | .get_course_modules => false
  | .get_course_home_page => false
  | .get_course_syllabus => false
  | .get_course_grades => false
  | .get_assignment_submission => false

/-- The in-band value each handler's `except CanvasAPIError` branch returns:
`[{"error": str(e)}]` for the list-returning handlers; `{"error": str(e)}` for
the dict-returning ones, with the extra empty `files`/`modules` and `count`
fields for `get_course_files`/`get_course_modules`. -/
def facadeErrorResult (op : FacadeOp) (e : String) : Json :=
  match op with
  | .get_course_files =>
    .obj [("error", .str e), ("files", .arr []), ("count", .num 0)]
  | .get_course_modules =>
    .obj [("error", .str e), ("modules", .arr []), ("count", .num 0)]
  | op =>
    if returnsList op then .arr [.obj [("error", .str e)]]
    else .obj [("error", .str e)]

/-- One façade invocation: the client call's result is returned unchanged on
success, and mapped to the handler's in-band error value when the client
raised; the façade never re-raises. -/
def facadeCall (op : FacadeOp) (clientResult : Except String Json) : Json :=
  match clientResult with
  | .ok v => v
  | .error e => facadeErrorResult op e

/-! ## Claim theorems -/

/-- C2: for statuses 401/403/404/429 `_make_request` raises exactly the fixed
message for that status; 200 returns the parsed body as-is; every other status
raises the generic message built from the status code and the body truncated
to 200 characters. -/
theorem make_request_status_taxonomy (body : String) (payload : Json) :
    make_request (.response 200 body payload) = .ok payload
  ∧ make_request (.response 401 body payload) = .error authFailedMsg
  ∧ make_request (.response 403 body payload) = .error forbiddenMsg
  ∧ make_request (.response 404 body payload) = .error notFoundMsg
  ∧ make_request (.response 429 body payload) = .error rateLimitMsg
  ∧ ∀ status : Nat, status ≠ 200 → status ≠ 401 → status ≠ 403 → status ≠ 404 →
      status ≠ 429 →
      make_request (.response status body payload) =
        .error ("API request failed with status " ++ Nat.repr status ++ ": " ++ pyTake 200 body) := by
  refine ⟨rfl, rfl, rfl, rfl, rfl, ?_⟩
  intro status h200 h401 h403 h404 h429
  simp [make_request, h200, h401, h403, h404, h429, genericFailMsg]

/-- Witness for C2 at status 500. -/
theorem make_request_status_taxonomy_witness :
    make_request (.response 500 "server exploded" Json.null) =
      .error ("API request failed with status " ++ Nat.repr 500 ++ ": " ++ pyTake 200 "server exploded") :=
  (make_request_status_taxonomy "server exploded" Json.null).2.2.2.2.2 500
    (by decide) (by decide) (by decide) (by decide) (by decide)

/-- C7: `get_course` computes `navigation_hint` from the five-entry lookup table
keyed by `default_view` — exactly the modules hint for `"modules"`, the generic
fallback for an unrecognized or missing value — and a failed tabs request
yields `enabled_tabs = []` while the rest of the course object is still
returned. -/
theorem get_course_navigation (course : CourseDetail) (tabsResp : Except String (List Tab)) :
    ∃ out, get_course (.ok course) tabsResp = .ok out
      ∧ out.navigation_hint = navigation_hint_of (course.default_view.getD "unknown")
      ∧ (course.default_view = some "modules" →
          out.navigation_hint =
            "This course uses Modules — use get_course_modules to browse weekly content.")
      ∧ (∀ dv, course.default_view = some dv →
          dv ∉ (["modules", "wiki", "syllabus", "assignments", "feed"] : List String) →
          out.navigation_hint = fallbackHint)
      ∧ (course.default_view = none → out.navigation_hint = fallbackHint)
      ∧ (∀ e, tabsResp = .error e → out.enabled_tabs = [])
      ∧ out.id = course.id ∧ out.name = course.name
      ∧ out.syllabus_body = course.syllabus_body := by
  refine ⟨_, rfl, rfl, ?_, ?_, ?_, ?_, rfl, rfl, rfl⟩
  · intro h
    rw [h]
    rfl
  · intro dv h1 h2
    rw [h1]
    simp only [List.mem_cons, List.not_mem_nil, or_false, not_or] at h2
    obtain ⟨hm, hw, hs, ha, hf⟩ := h2
    simp [navigation_hint_of, view_hints, List.find?,
      Ne.symm hm, Ne.symm hw, Ne.symm hs, Ne.symm ha, Ne.symm hf]
  · intro h
    rw [h]
    rfl
  · intro e h
    subst h
    rfl

/-- Witness for C7: a modules-view course with a failing tabs request. -/
theorem get_course_navigation_witness :
    ∃ out, get_course
        (.ok ⟨Json.num 1, Json.str "Intro", Json.str "C1", Json.null, Json.null,
              Json.null, Json.null, Json.null, some "modules", Json.null, Json.null, []⟩)
        (.error "tabs failed") = .ok out
      ∧ out.navigation_hint =
          "This course uses Modules — use get_course_modules to browse weekly content."
      ∧ out.enabled_tabs = [] := by
  obtain ⟨out, h1, _, h3, _, _, h6, _⟩ :=
    get_course_navigation
      ⟨Json.num 1, Json.str "Intro", Json.str "C1", Json.null, Json.null,
       Json.null, Json.null, Json.null, some "modules", Json.null, Json.null, []⟩
      (.error "tabs failed")
  exact ⟨out, h1, h3 rfl, h6 "tabs failed" rfl⟩

/-- C10: on every return path of `get_course_files` the `count` field equals
the length of the `files` list. -/
theorem files_count_invariant (filesResp : Except String (List CanvasFile))
    (r : FilesResult) (h : get_course_files filesResp = .ok r) :
    r.count = r.files.length := by
  rcases filesResp with e | files
  · simp only [get_course_files] at h
    split at h
    · simp only [Except.ok.injEq] at h
      subst h
      rfl
    · split at h
      · simp only [Except.ok.injEq] at h
        subst h
        rfl
      · simp at h
  · simp only [get_course_files] at h
    split at h
    · simp only [Except.ok.injEq] at h
      subst h
      rfl
    · simp only [Except.ok.injEq] at h
      subst h
      simp

/-- Witness for C10 on the empty-payload path. -/
theorem files_count_invariant_witness :
    ({ files := [], count := 0, message := some noFilesMsg, error := none,
       suggestions := some filesSuggestions } : FilesResult).count =
    ({ files := [], count := 0, message := some noFilesMsg, error := none,
       suggestions := some filesSuggestions } : FilesResult).files.length :=
  files_count_invariant (.ok []) _ rfl

/-- C8: every façade handler returns the client's result unchanged on success,
and on a client error returns the in-band error value of its declared shape —
a one-element list holding an error object for list-returning handlers, a
single object carrying the error message for dict-returning handlers — never
re-raising (the model's codomain is a plain value). -/
theorem facade_inband_errors (op : FacadeOp) (v : Json) (e : String) :
    facadeCall op (.ok v) = v
  ∧ (returnsList op = true →
      facadeCall op (.error e) = .arr [.obj [("error", .str e)]])
  ∧ (returnsList op = false →
      ∃ fields, facadeCall op (.error e) = .obj fields ∧ ("error", Json.str e) ∈ fields) := by
  refine ⟨rfl, ?_, ?_⟩
  · intro h
    cases op <;> simp_all [facadeCall, facadeErrorResult, returnsList]
  · intro h
    cases op <;> first
      | exact ⟨_, rfl, by simp⟩
      | simp_all [returnsList]

/-- Witness for C8: a list-returning and a dict-returning handler. -/
theorem facade_inband_errors_witness :
    facadeCall .list_courses (.error "boom") = .arr [.obj [("error", .str "boom")]]
  ∧ facadeCall .get_course_details (.ok (Json.str "payload")) = Json.str "payload"
  ∧ ∃ fields, facadeCall .get_course_files (.error "boom") = .obj fields
      ∧ ("error", Json.str "boom") ∈ fields :=
  ⟨(facade_inband_errors .list_courses Json.null "boom").2.1 rfl,
   (facade_inband_errors .get_course_details (Json.str "payload") "boom").1,
   (facade_inband_errors .get_course_files Json.null "boom").2.2 rfl⟩

/-- C9: a failure of the calendar-events request inside
`get_all_calendar_events` — whatever its message — is caught by the catch-all
handler and returned in-band as the singleton error list (`CalResult.err`),
never re-raised. -/
theorem all_calendar_events_catchall (days_ahead : Int) (courses : List Course)
    (e : String) (h : courses ≠ []) :
    get_all_calendar_events days_ahead (.ok courses) (.error e) = .ok (.err e) := by
  cases courses with
  | nil => exact absurd rfl h
  | cons c cs => rfl

/-- Witness for C9 with the rate-limit error, a status no other operation
catches. -/
theorem all_calendar_events_catchall_witness :
    get_all_calendar_events 7
      (.ok [⟨1, "Intro", "C1", Json.null, Json.null, Json.null, none⟩])
      (.error rateLimitMsg) = .ok (.err rateLimitMsg) :=
  all_calendar_events_catchall 7 _ rateLimitMsg (by simp)

/-- Characterization of the per-assignment filter of
`get_upcoming_assignments`. -/
theorem keepUpcoming_eq_some {τ : Type} [LinearOrder τ] {parse : String → Option τ}
    {now : τ} {course : Course} {a : Assignment} {r : UpcomingRec} :
    keepUpcoming parse now course a = some r ↔
      ∃ s, a.due_at = some s ∧ s ≠ "" ∧
        (∃ d, parse (pyReplaceChar s 'Z' "+00:00") = some d ∧ now < d) ∧
        r = { course_id := course.id, course_name := course.name,
              course_code := course.course_code,
              assignment_id := a.id, assignment_name := a.name, due_at := s,
              points_possible := a.points_possible, html_url := a.html_url } := by
  unfold keepUpcoming
  rcases hdue : a.due_at with _ | s
  · simp
  · simp only [Option.some.injEq]
    by_cases hs : s = ""
    · simp [hs]
    · simp only [if_neg hs]
      rcases hp : parse (pyReplaceChar s 'Z' "+00:00") with _ | d
      · simp [hp, hs]
      · by_cases hlt : now < d
        · simp only [if_pos hlt]
          constructor
          · intro h
            injection h with h'
            exact ⟨s, rfl, hs, ⟨d, hp, hlt⟩, h'.symm⟩
          · rintro ⟨s', hs', _, _, hr⟩
            cases hs'
            rw [hr]
        · simp only [if_neg hlt]
          constructor
          · intro h
            exact Option.noConfusion h
          · rintro ⟨s', hs', _, ⟨d', hd', hlt'⟩, _⟩
            cases hs'
            rw [hp] at hd'
            injection hd' with hd''
            subst hd''
            exact absurd hlt' hlt

/-- C1: for every course list and per-course assignment responses,
`get_upcoming_assignments` succeeds and returns a list sorted ascending by the
raw due-date string whose members are exactly the records of assignments — in
courses whose fetch succeeded — whose truthy `due_at` parses (after `'Z'` →
`'+00:00'`) to an instant strictly after `now`; unparseable or missing due
dates are dropped and failed course fetches are skipped without aborting. -/
theorem upcoming_deadlines_spec {τ : Type} [LinearOrder τ]
    (parse : String → Option τ) (now : τ)
    (courses : List Course) (fetchAssignments : Int → Except String (List Assignment)) :
    ∃ l, get_upcoming_assignments parse now (.ok courses) fetchAssignments = .ok l
      ∧ l.Pairwise (fun x y => strLe x.due_at y.due_at = true)
      ∧ ∀ r, r ∈ l ↔ ∃ c ∈ courses, ∃ assignments,
          fetchAssignments c.id = .ok assignments ∧
          ∃ a ∈ assignments, ∃ s, a.due_at = some s ∧ s ≠ "" ∧
            (∃ d, parse (pyReplaceChar s 'Z' "+00:00") = some d ∧ now < d) ∧
            r = { course_id := c.id, course_name := c.name, course_code := c.course_code,
                  assignment_id := a.id, assignment_name := a.name, due_at := s,
                  points_possible := a.points_possible, html_url := a.html_url } := by
  refine ⟨_, rfl, ?_, ?_⟩
  · exact pairwise_pySortBy (fun (a b : UpcomingRec) => strLe_total a.due_at b.due_at)
      (fun a b c h1 h2 => strLe_trans h1 h2) _
  · intro r
    rw [mem_pySortBy, List.mem_flatMap]
    constructor
    · rintro ⟨c, hc, hmem⟩
      rcases hfe : fetchAssignments c.id with e | assignments
      · rw [hfe] at hmem
        simp at hmem
      · rw [hfe] at hmem
        rw [List.mem_filterMap] at hmem
        obtain ⟨a, ha, hk⟩ := hmem
        exact ⟨c, hc, assignments, hfe, a, ha, keepUpcoming_eq_some.mp hk⟩
    · rintro ⟨c, hc, assignments, hfe, a, ha, hcond⟩
      refine ⟨c, hc, ?_⟩
      rw [hfe, List.mem_filterMap]
      exact ⟨a, ha, keepUpcoming_eq_some.mpr hcond⟩

theorem gradeLe_total (a b : GradeRow) : (gradeLe a b || gradeLe b a) = true := by
  simp only [gradeLe, Bool.or_eq_true, Bool.and_eq_true, decide_eq_true_eq]
  rcases Nat.lt_trichotomy (gradeKey1 a) (gradeKey1 b) with h | h | h
  · exact Or.inl (Or.inl h)
  · have htot := strLe_total (dueKey a) (dueKey b)
    simp only [Bool.or_eq_true] at htot
    rcases htot with h' | h'
    · exact Or.inl (Or.inr ⟨h, h'⟩)
    · exact Or.inr (Or.inr ⟨h.symm, h'⟩)
  · exact Or.inr (Or.inl h)

theorem gradeLe_trans (a b c : GradeRow) :
    gradeLe a b = true → gradeLe b c = true → gradeLe a c = true := by
  simp only [gradeLe, Bool.or_eq_true, Bool.and_eq_true, decide_eq_true_eq]
  rintro (h1 | ⟨h1, h1'⟩) (h2 | ⟨h2, h2'⟩)
  · exact Or.inl (h1.trans h2)
  · exact Or.inl (h2 ▸ h1)
  · exact Or.inl (h1 ▸ h2)
  · exact Or.inr ⟨h1.trans h2, strLe_trans h1' h2'⟩

/-- C3: on a non-empty submissions response, `get_all_assignment_grades` returns
the formatted records reordered so that every graded entry precedes every
non-graded entry, and entries in the same group are ascending by due-date
string (`None` read as `''`, which is the least string). -/
theorem grades_graded_first (course_id : Int) (submissions : List Submission)
    (h : submissions ≠ []) :
    ∃ rows, get_all_assignment_grades course_id (.ok submissions) = .ok (.rows rows)
      ∧ rows.Pairwise (fun a b =>
          (b.workflow_state = some "graded" → a.workflow_state = some "graded")
          ∧ ((a.workflow_state = some "graded" ↔ b.workflow_state = some "graded") →
              strLe (a.due_at.getD "") (b.due_at.getD "") = true))
      ∧ rows.Perm (submissions.map formatSubmission) := by
  have hne : submissions.isEmpty = false := by
    cases submissions with
    | nil => exact absurd rfl h
    | cons x xs => rfl
  refine ⟨pySortBy gradeLe (submissions.map formatSubmission), ?_, ?_, pySortBy_perm _ _⟩
  · simp [get_all_assignment_grades, hne]
  · have hp := pairwise_pySortBy gradeLe_total gradeLe_trans (submissions.map formatSubmission)
    refine hp.imp ?_
    intro a b hab
    simp only [gradeLe, Bool.or_eq_true, Bool.and_eq_true, decide_eq_true_eq] at hab
    constructor
    · intro hb
      have hkb : gradeKey1 b = 0 := by simp [gradeKey1, hb]
      rcases hab with h1 | ⟨h1, _⟩
      · rw [hkb] at h1
        exact absurd h1 (Nat.not_lt_zero _)
      · have hka : gradeKey1 a = 0 := h1.trans hkb
        by_contra hga
        simp [gradeKey1, hga] at hka
    · intro hiff
      have hk : gradeKey1 a = gradeKey1 b := by
        by_cases hA : a.workflow_state = some "graded"
        · simp [gradeKey1, hA, hiff.mp hA]
        · have hB : ¬ b.workflow_state = some "graded" := fun hb => hA (hiff.mpr hb)
          simp [gradeKey1, hA, hB]
      rcases hab with h1 | ⟨_, h2⟩
      · rw [hk] at h1
        exact absurd h1 (lt_irrefl _)
      · exact h2

/-- Witness for C3: one graded and one ungraded submission; the graded one has
the later due date yet sorts first. -/
theorem grades_graded_first_witness :
    ∃ rows, get_all_assignment_grades 1
        (.ok [ ⟨some 9, some ⟨some "HW2", Json.num 10, some "2024-02-01T00:00:00Z"⟩,
                 some "submitted", Json.null, Json.null, Json.null, none, none, Json.null⟩,
               ⟨some 8, some ⟨some "HW1", Json.num 10, some "2024-03-01T00:00:00Z"⟩,
                 some "graded", Json.null, Json.num 9, Json.str "A", none, none, Json.null⟩ ])
        = .ok (.rows rows)
      ∧ rows.Pairwise (fun a b =>
          (b.workflow_state = some "graded" → a.workflow_state = some "graded")
          ∧ ((a.workflow_state = some "graded" ↔ b.workflow_state = some "graded") →
              strLe (a.due_at.getD "") (b.due_at.getD "") = true))
      ∧ rows.Perm ([ ⟨some 9, some ⟨some "HW2", Json.num 10, some "2024-02-01T00:00:00Z"⟩,
                       some "submitted", Json.null, Json.null, Json.null, none, none, Json.null⟩,
                     ⟨some 8, some ⟨some "HW1", Json.num 10, some "2024-03-01T00:00:00Z"⟩,
                       some "graded", Json.null, Json.num 9, Json.str "A", none, none, Json.null⟩ ].map formatSubmission) :=
  grades_graded_first 1 _ (by simp)

/-- C4: on a non-empty event response with a non-empty course list,
`get_all_calendar_events` returns one row per event, whose `course_id` is the
trailing integer parsed from the event's context code (unparseable giving
`none`), whose `course_name` is the course-map lookup with `"Unknown Course"`
as default, and the rows are sorted ascending by start time, a blank start
reading as `''` and hence sorting first. -/
theorem all_calendar_events_shape (days_ahead : Int) (courses : List Course)
    (events : List CalEvent) (hc : courses ≠ []) (he : events ≠ []) :
    ∃ rows, get_all_calendar_events days_ahead (.ok courses) (.ok events) = .ok (.rows rows)
      ∧ rows.Perm (events.map (formatCalEvent courses))
      ∧ (∀ row ∈ rows, ∃ ev ∈ events,
          row = formatCalEvent courses ev
          ∧ row.course_id = parseContextId ev.context_code
          ∧ row.course_name = courseMapGet courses row.course_id)
      ∧ rows.Pairwise (fun a b => strLe (a.start_at.getD "") (b.start_at.getD "") = true) := by
  have hc' : courses.isEmpty = false := by
    cases courses with
    | nil => exact absurd rfl hc
    | cons x xs => rfl
  have he' : events.isEmpty = false := by
    cases events with
    | nil => exact absurd rfl he
    | cons x xs => rfl
  refine ⟨pySortBy calLe (events.map (formatCalEvent courses)), ?_, pySortBy_perm _ _, ?_, ?_⟩
  · simp [get_all_calendar_events, hc', he']
  · intro row hrow
    rw [mem_pySortBy, List.mem_map] at hrow
    obtain ⟨ev, hev, hfmt⟩ := hrow
    subst hfmt
    exact ⟨ev, hev, rfl, rfl, rfl⟩
  · exact pairwise_pySortBy (fun (a b : CalRow) => strLe_total (a.start_at.getD "") (b.start_at.getD ""))
      (fun a b c h1 h2 => strLe_trans h1 h2) _

/-- Witness for C4: one event with context code `"course_42"`; its row carries
`course_id = 42` and the mapped course name. -/
theorem all_calendar_events_shape_witness :
    (∃ rows, get_all_calendar_events 7
        (.ok [⟨42, "Algebra", "ALG", Json.null, Json.null, Json.null, none⟩])
        (.ok [⟨Json.num 7, Json.str "Lecture", some "course_42",
              some "2026-01-01T10:00:00Z", Json.null, Json.null, Json.null, Json.null, none⟩])
        = .ok (.rows rows)
      ∧ ∀ row ∈ rows, row.course_id = some 42 ∧ row.course_name = "Algebra") := by
  obtain ⟨rows, heq, _, hpt, _⟩ :=
    all_calendar_events_shape 7
      [⟨42, "Algebra", "ALG", Json.null, Json.null, Json.null, none⟩]
      [⟨Json.num 7, Json.str "Lecture", some "course_42",
        some "2026-01-01T10:00:00Z", Json.null, Json.null, Json.null, Json.null, none⟩]
      (by simp) (by simp)
  refine ⟨rows, heq, ?_⟩
  intro row hrow
  obtain ⟨ev, hev, hfmt, hcid, hname⟩ := hpt row hrow
  rcases List.mem_singleton.mp hev with rfl
  constructor
  · rw [hcid]
    decide
  · rw [hname, hcid]
    decide

theorem annDescLe_total (a b : AnnRow) : (annDescLe a b || annDescLe b a) = true := by
  rw [Bool.or_comm]
  exact strLe_total (a.posted_at.getD "") (b.posted_at.getD "")

theorem annDescLe_trans (a b c : AnnRow) :
    annDescLe a b = true → annDescLe b c = true → annDescLe a c = true :=
  fun h1 h2 => strLe_trans h2 h1

theorem announcementsCore_rows (course_id : Option Int) (days_back : Int)
    (course_map : List Course) (anns : List Announcement) (rows : List AnnRow)
    (h : announcementsCore course_id days_back course_map (.ok anns) = .ok (.rows rows)) :
    rows = pySortBy annDescLe (anns.map (formatAnnouncement course_map)) := by
  simp only [announcementsCore] at h
  split at h
  · simp at h
  · simp only [Except.ok.injEq] at h
    injection h with h'
    exact h'.symm

/-- A blank-posted announcement (used to exercise the descending sort). -/
def annBlankSample : Announcement :=
  ⟨Json.num 1, Json.str "no date", Json.null, none, Json.null, some "course_1",
   Json.null, Json.null⟩

/-- A dated announcement. -/
def annDatedSample : Announcement :=
  ⟨Json.num 2, Json.str "dated", Json.null, some "2024-01-01T00:00:00Z", Json.null,
   some "course_1", Json.null, Json.null⟩

/-- C5 counterexample: with one blank-posted and one dated announcement the code
returns the dated row first and the blank row last — treating the blank posted
time as the smallest value makes it sort *last* under the descending sort, so
the claim that blank posted times sort first is false. -/
theorem announcements_blank_first_counterexample :
    get_announcements (some 1) 14 (.ok []) (.ok [annBlankSample, annDatedSample])
      = .ok (.rows [formatAnnouncement [] annDatedSample, formatAnnouncement [] annBlankSample])
    ∧ (formatAnnouncement [] annBlankSample).posted_at = none
    ∧ (formatAnnouncement [] annDatedSample).posted_at = some "2024-01-01T00:00:00Z"
    ∧ ([formatAnnouncement [] annDatedSample, formatAnnouncement [] annBlankSample] : List AnnRow)
        ≠ [formatAnnouncement [] annBlankSample, formatAnnouncement [] annDatedSample] := by
  refine ⟨rfl, rfl, rfl, ?_⟩
  intro hcontra
  injection hcontra with h1 _
  exact Option.noConfusion (congrArg AnnRow.posted_at h1)

/-- C5 (amended): on a non-empty announcements response, `get_announcements`
returns the formatted rows sorted descending by posted time, a blank posted
time reading as `''` — the smallest key — and therefore sorting *last*. -/
theorem announcements_sorted_desc (course_id : Option Int) (days_back : Int)
    (coursesResp : Except String (List Course)) (anns : List Announcement)
    (rows : List AnnRow)
    (h : get_announcements course_id days_back coursesResp (.ok anns) = .ok (.rows rows)) :
    rows.Pairwise (fun a b => strLe (b.posted_at.getD "") (a.posted_at.getD "") = true)
    ∧ ∃ course_map : List Course,
        rows.Perm (anns.map (formatAnnouncement course_map)) := by
  simp only [get_announcements] at h
  split at h
  · have hr := announcementsCore_rows _ _ _ _ _ h
    subst hr
    exact ⟨(pairwise_pySortBy annDescLe_total annDescLe_trans _).imp (fun hab => hab),
      [], pySortBy_perm _ _⟩
  · rcases coursesResp with e | courses
    · simp at h
    · rcases courses with _ | ⟨c, cs⟩
      · simp at h
      · have h' : announcementsCore course_id days_back (c :: cs) (.ok anns) = .ok (.rows rows) := by
          simpa using h
        have hr := announcementsCore_rows _ _ _ _ _ h'
        subst hr
        exact ⟨(pairwise_pySortBy annDescLe_total annDescLe_trans _).imp (fun hab => hab),
          c :: cs, pySortBy_perm _ _⟩

/-- Witness for the amended C5: the blank-posted announcement ends up last. -/
theorem announcements_sorted_desc_witness :
    ([formatAnnouncement [] annDatedSample, formatAnnouncement [] annBlankSample] : List AnnRow).Pairwise
        (fun a b => strLe (b.posted_at.getD "") (a.posted_at.getD "") = true)
    ∧ ∃ course_map : List Course,
        ([formatAnnouncement [] annDatedSample, formatAnnouncement [] annBlankSample] : List AnnRow).Perm
          ([annBlankSample, annDatedSample].map (formatAnnouncement course_map)) :=
  announcements_sorted_desc (some 1) 14 (.ok []) [annBlankSample, annDatedSample] _ rfl

/-- C6 (amended): `get_course_files` maps the empty payload to the advisory
payload with suggestions (no error), the 403 error to the "files disabled"
payload and the 404 error to the "files missing" payload; but the
classification is substring matching on the raised message (`'forbidden'`/
`'403'`, then `'not found'`/`'404'`), so any other error whose message
contains one of those substrings is also converted, and only an error whose
message matches neither test propagates. -/
theorem course_files_error_paths (e : String) (body : String) (payload : Json) :
    get_course_files (.ok []) =
      .ok { files := [], count := 0, message := some noFilesMsg, error := none,
            suggestions := some filesSuggestions }
  ∧ make_request (.response 403 body payload) = .error forbiddenMsg
  ∧ get_course_files (.error forbiddenMsg) =
      .ok { files := [], count := 0, message := none, error := some filesDisabledMsg,
            suggestions := some filesSuggestions }
  ∧ make_request (.response 404 body payload) = .error notFoundMsg
  ∧ get_course_files (.error notFoundMsg) =
      .ok { files := [], count := 0, message := none, error := some filesMissingMsg,
            suggestions := some filesSuggestions404 }
  ∧ (isForbiddenErr e = true →
      get_course_files (.error e) =
        .ok { files := [], count := 0, message := none, error := some filesDisabledMsg,
              suggestions := some filesSuggestions })
  ∧ (isForbiddenErr e = false → isNotFoundErr e = true →
      get_course_files (.error e) =
        .ok { files := [], count := 0, message := none, error := some filesMissingMsg,
              suggestions := some filesSuggestions404 })
  ∧ (isForbiddenErr e = false → isNotFoundErr e = false →
      get_course_files (.error e) = .error e) := by
  refine ⟨rfl, rfl, rfl, rfl, rfl, ?_, ?_, ?_⟩
  · intro h1
    simp [get_course_files, h1]
  · intro h1 h2
    simp [get_course_files, h1, h2]
  · intro h1 h2
    simp [get_course_files, h1, h2]

/-- Witness for the amended C6: the 401 message matches neither substring test
and propagates. -/
theorem course_files_error_paths_witness :
    get_course_files (.error authFailedMsg) = .error authFailedMsg :=
  (course_files_error_paths authFailedMsg "" Json.null).2.2.2.2.2.2.2 rfl rfl

/-- C6 counterexample: a status-500 error whose body mentions "403" is caught
by the substring classification and converted into the "files disabled"
payload instead of propagating — refuting "every other Client error propagates
to the caller". -/
theorem course_files_propagation_counterexample :
    make_request (.response 500 "see error 403 upstream" Json.null) =
      .error "API request failed with status 500: see error 403 upstream"
    ∧ get_course_files (.error "API request failed with status 500: see error 403 upstream") =
        .ok { files := [], count := 0, message := none, error := some filesDisabledMsg,
              suggestions := some filesSuggestions } := by
  constructor
  · rfl
  · rfl
